import Mathlib

/-
Verification of the SolarThermoSim natural-circulation loop simulator
(src/simulator.py) against its specification.

The Python source is shallowly embedded over the real numbers:
 - class Fluid and class NaturalCirculationSimulator become structures;
 - calculate_flow_rate's inner momentum iteration (lines 65-103) becomes
   the fuel-indexed recursion flowIter (the pre-loop computation of
   reynolds / friction_factor / pressure_drop at lines 74-82 is recomputed
   at the top of the first loop iteration and has no effect on the result,
   so it is not separately embedded);
 - simulate's outer energy-coupling loop (lines 117-127) becomes outerLoop,
   which carries the pair (delta_t_guess, flow_rate);
 - Python's float arithmetic is idealized as real arithmetic; x ** 0.25 is
   Real.rpow.
-/

structure Fluid where
  name : String
  density : ℝ
  specific_heat : ℝ
  viscosity : ℝ
  thermal_conductivity : ℝ

/-- Water at 20 degrees C (class Water, lines 19-29). -/
def Water : Fluid :=
  ⟨"Water", 998.0, 4182.0, 0.001002, 0.598⟩

structure NaturalCirculationSimulator where
  fluid : Fluid
  loop_height : ℝ
  pipe_diameter : ℝ
  heater_power : ℝ
  cooler_temp : ℝ

/-- self.cross_section = math.pi * (pipe_diameter / 2) ** 2 (line 50). -/
noncomputable def cross_section (s : NaturalCirculationSimulator) : ℝ :=
  Real.pi * (s.pipe_diameter / 2) ^ 2

/-- reynolds = rho * velocity_guess * self.pipe_diameter / self.fluid.viscosity (line 89). -/
noncomputable def reynolds (s : NaturalCirculationSimulator) (v : ℝ) : ℝ :=
  s.fluid.density * v * s.pipe_diameter / s.fluid.viscosity

/-- Friction factor at the current velocity (lines 90-93). -/
noncomputable def frictionFactor (s : NaturalCirculationSimulator) (v : ℝ) : ℝ :=
  if reynolds s v < 2000 then
    if reynolds s v > 0 then 64 / reynolds s v else 0.064
  else 0.316 / reynolds s v ^ (0.25 : ℝ)

/-- loop_length = 4 * self.loop_height (line 81). -/
noncomputable def loopLength (s : NaturalCirculationSimulator) : ℝ :=
  4 * s.loop_height

/-- pressure_head = g * rho * beta * delta_t * self.loop_height (line 70),
with g = 9.81 and beta = 0.00021. -/
noncomputable def pressureHead (s : NaturalCirculationSimulator) (delta_t : ℝ) : ℝ :=
  9.81 * s.fluid.density * 0.00021 * delta_t * s.loop_height

/-- pressure_drop = friction_factor * (loop_length / pipe_diameter) * (rho * v ** 2) / 2 (line 94). -/
noncomputable def pressureDrop (s : NaturalCirculationSimulator) (v : ℝ) : ℝ :=
  frictionFactor s v * (loopLength s / s.pipe_diameter) * (s.fluid.density * v ^ 2) / 2

/-- One velocity update of the inner loop (lines 99-100):
velocity_guess += residual / (rho * velocity_guess * loop_length / pipe_diameter)
if velocity_guess != 0 else 0.01; velocity_guess = max(velocity_guess, 1e-5). -/
noncomputable def velocityUpdate (s : NaturalCirculationSimulator) (delta_t v : ℝ) : ℝ :=
  max
    (if v ≠ 0 then
      v + (pressureHead s delta_t - pressureDrop s v) /
        (s.fluid.density * v * loopLength s / s.pipe_diameter)
    else v + 0.01)
    1e-5

/-- The inner momentum loop of calculate_flow_rate (lines 88-100), indexed by the
remaining iteration count. Each iteration first tests the convergence break
(abs(residual) < 1e-6, lines 95-97) at the current velocity, and otherwise updates. -/
noncomputable def flowIter (s : NaturalCirculationSimulator) (delta_t : ℝ) : ℕ → ℝ → ℝ
  | 0, v => v
  | n + 1, v =>
      if |pressureHead s delta_t - pressureDrop s v| < 1e-6 then v
      else flowIter s delta_t n (velocityUpdate s delta_t v)

/-- calculate_flow_rate (lines 52-103): 100 inner iterations from the initial
guess 0.1, then flow_rate = velocity_guess * self.cross_section. -/
noncomputable def calculate_flow_rate (s : NaturalCirculationSimulator) (delta_t : ℝ) : ℝ :=
  flowIter s delta_t 100 0.1 * cross_section s

structure SimResult where
  flow_rate_m3_s : ℝ
  hot_leg_temp_C : ℝ
  cold_leg_temp_C : ℝ
  temperature_difference_C : ℝ
  fluid : String

/-- The outer energy-balance loop of simulate (lines 117-127), carrying the pair
(delta_t_guess, flow_rate). -/
noncomputable def outerLoop (s : NaturalCirculationSimulator) : ℕ → ℝ × ℝ → ℝ × ℝ
  | 0, st => st
  | n + 1, st =>
      let flow_rate := calculate_flow_rate s st.1
      let mass_flow := flow_rate * s.fluid.density
      let delta_t_calc :=
        if mass_flow > 0 then s.heater_power / (mass_flow * s.fluid.specific_heat) else st.1
      outerLoop s n (0.5 * st.1 + 0.5 * delta_t_calc, flow_rate)

/-- simulate (lines 105-138): 20 outer iterations from delta_t_guess = 10.0; the
initial_temp parameter is accepted (default 20.0 in the source) but never read.
The second component 0 of the initial loop state models Python's initially
unbound flow_rate; it is overwritten in the first of the 20 iterations. -/
noncomputable def simulate (s : NaturalCirculationSimulator) (initial_temp : ℝ) : SimResult :=
  let st := outerLoop s 20 (10.0, 0)
  ⟨st.2, s.cooler_temp + st.1, s.cooler_temp, st.1, s.fluid.name⟩

/-- Modelled from the spec: the single outer-iteration step as described in
section 4.2 of the spec (flow from the momentum solver, mass flow, energy
balance with the degenerate-mass-flow guard, 50 percent under-relaxation).
Used to state the refinement claims about simulate. -/
noncomputable def specStep (s : NaturalCirculationSimulator) (dt : ℝ) : ℝ :=
  let flow := calculate_flow_rate s dt
  let mass := flow * s.fluid.density
  0.5 * dt + 0.5 * (if mass > 0 then s.heater_power / (mass * s.fluid.specific_heat) else dt)

/-- Modelled from the spec: n applications of the outer-iteration step. -/
noncomputable def specDtIter (s : NaturalCirculationSimulator) : ℕ → ℝ → ℝ
  | 0, dt => dt
  | n + 1, dt => specDtIter s n (specStep s dt)

/-- C2: simulate ignores its initial_temp parameter: any two initial
temperatures give identical result records. -/
theorem c2_initial_temp_has_no_influence (s : NaturalCirculationSimulator) (t1 t2 : ℝ) :
    simulate s t1 = simulate s t2 := rfl

lemma specDtIter_zero (s : NaturalCirculationSimulator) (dt : ℝ) :
    specDtIter s 0 dt = dt := rfl

lemma specDtIter_succ (s : NaturalCirculationSimulator) (n : ℕ) (dt : ℝ) :
    specDtIter s (n + 1) dt = specDtIter s n (specStep s dt) := rfl

lemma outerLoop_zero (s : NaturalCirculationSimulator) (st : ℝ × ℝ) :
    outerLoop s 0 st = st := rfl

lemma flowIter_zero (s : NaturalCirculationSimulator) (delta_t v : ℝ) :
    flowIter s delta_t 0 v = v := rfl

lemma flowIter_succ (s : NaturalCirculationSimulator) (delta_t : ℝ) (n : ℕ) (v : ℝ) :
    flowIter s delta_t (n + 1) v =
      if |pressureHead s delta_t - pressureDrop s v| < 1e-6 then v
      else flowIter s delta_t n (velocityUpdate s delta_t v) := rfl

lemma outerLoop_succ (s : NaturalCirculationSimulator) (n : ℕ) (dt f : ℝ) :
    outerLoop s (n + 1) (dt, f) =
      outerLoop s n (specStep s dt, calculate_flow_rate s dt) := by
  simp only [outerLoop, specStep]

lemma outerLoop_spec (s : NaturalCirculationSimulator) :
    ∀ (n : ℕ) (dt f : ℝ),
      outerLoop s (n + 1) (dt, f) =
        (specDtIter s (n + 1) dt, calculate_flow_rate s (specDtIter s n dt)) := by
  intro n
  induction n with
  | zero =>
      intro dt f
      rw [outerLoop_succ, outerLoop_zero, specDtIter_succ, specDtIter_zero, specDtIter_zero]
  | succ n ih =>
      intro dt f
      rw [outerLoop_succ, ih (specStep s dt) (calculate_flow_rate s dt),
        specDtIter_succ s (n + 1) dt, specDtIter_succ s n dt]

lemma specDtIter_succ_right (s : NaturalCirculationSimulator) :
    ∀ (n : ℕ) (dt : ℝ), specDtIter s (n + 1) dt = specStep s (specDtIter s n dt) := by
  intro n
  induction n with
  | zero => intro dt; rw [specDtIter_succ, specDtIter_zero, specDtIter_zero]
  | succ n ih =>
      intro dt
      rw [specDtIter_succ s (n + 1) dt, ih (specStep s dt), specDtIter_succ s n dt]

lemma simulate_def (s : NaturalCirculationSimulator) (t : ℝ) :
    simulate s t =
      ⟨(outerLoop s 20 (10.0, 0)).2, s.cooler_temp + (outerLoop s 20 (10.0, 0)).1,
        s.cooler_temp, (outerLoop s 20 (10.0, 0)).1, s.fluid.name⟩ := rfl

lemma simulate_fields (s : NaturalCirculationSimulator) (t : ℝ) :
    simulate s t =
      ⟨calculate_flow_rate s (specDtIter s 19 10.0),
        s.cooler_temp + specDtIter s 20 10.0, s.cooler_temp,
        specDtIter s 20 10.0, s.fluid.name⟩ := by
  have h : outerLoop s 20 (10.0, 0) =
      (specDtIter s 20 10.0, calculate_flow_rate s (specDtIter s 19 10.0)) :=
    outerLoop_spec s 19 10.0 0
  rw [simulate_def, h]

lemma velocityUpdate_floor (s : NaturalCirculationSimulator) (delta_t v : ℝ) :
    1e-5 ≤ velocityUpdate s delta_t v :=
  le_max_right _ _

lemma flowIter_floor (s : NaturalCirculationSimulator) (delta_t : ℝ) :
    ∀ (n : ℕ) (v : ℝ), 1e-5 ≤ v → 1e-5 ≤ flowIter s delta_t n v := by
  intro n
  induction n with
  | zero => intro v hv; rw [flowIter_zero]; exact hv
  | succ n ih =>
      intro v hv
      rw [flowIter_succ]
      split_ifs with h
      · exact hv
      · exact ih _ (velocityUpdate_floor s delta_t v)

lemma cross_section_pos (s : NaturalCirculationSimulator)
    (hD : 0 < s.pipe_diameter) : 0 < cross_section s :=
  mul_pos Real.pi_pos (pow_pos (half_pos hD) 2)

lemma calculate_flow_rate_pos (s : NaturalCirculationSimulator) (delta_t : ℝ)
    (hD : 0 < s.pipe_diameter) : 0 < calculate_flow_rate s delta_t :=
  mul_pos (lt_of_lt_of_le (by norm_num) (flowIter_floor s delta_t 100 0.1 (by norm_num)))
    (cross_section_pos s hD)

/-- C1: for every real delta_t, under strictly positive density, viscosity, pipe
diameter and loop height, every velocity the inner loop feeds back into the Re / f
computation after an update is at least 1e-5 (the clamp), the velocity entering
each iteration stays at least 1e-5, and the returned flow rate is the final
velocity times the cross-section and is strictly positive. -/
theorem c1_velocity_floor (s : NaturalCirculationSimulator) (delta_t : ℝ)
    (hrho : 0 < s.fluid.density) (hmu : 0 < s.fluid.viscosity)
    (hD : 0 < s.pipe_diameter) (hH : 0 < s.loop_height) :
    (∀ v : ℝ, 1e-5 ≤ velocityUpdate s delta_t v) ∧
    (∀ (n : ℕ) (v : ℝ), 1e-5 ≤ v → 1e-5 ≤ flowIter s delta_t n v) ∧
    calculate_flow_rate s delta_t = flowIter s delta_t 100 0.1 * cross_section s ∧
    0 < calculate_flow_rate s delta_t :=
  ⟨fun v => velocityUpdate_floor s delta_t v, flowIter_floor s delta_t, rfl,
    calculate_flow_rate_pos s delta_t hD⟩

/-- The example driver's simulator (lines 142-149): water, height 2 m, diameter
0.05 m, heater 1000 W, cooler 20 C. Used as concrete input for witnesses. -/
def simW : NaturalCirculationSimulator :=
  ⟨Water, 2.0, 0.05, 1000.0, 20.0⟩

/-- Witness for C1 at the example-driver configuration and delta_t = 10. -/
theorem c1_velocity_floor_witness :
    (0 < simW.fluid.density ∧ 0 < simW.fluid.viscosity ∧
      0 < simW.pipe_diameter ∧ 0 < simW.loop_height) ∧
    0 < calculate_flow_rate simW 10 :=
  ⟨⟨by norm_num [simW, Water], by norm_num [simW, Water], by norm_num [simW, Water],
      by norm_num [simW, Water]⟩,
    (c1_velocity_floor simW 10 (by norm_num [simW, Water]) (by norm_num [simW, Water])
      (by norm_num [simW, Water]) (by norm_num [simW, Water])).2.2.2⟩

/-- C3: the reported flow rate is calculate_flow_rate applied to the delta_t
value at the start of the 20th (last) outer iteration, before that iteration's
relaxation update; the reported temperature difference is the post-update value,
so whenever the two differ the record's flow rate is not
calculate_flow_rate of the reported temperature difference (one-step lag). -/
theorem c3_one_step_lag (s : NaturalCirculationSimulator) (t : ℝ) :
    (simulate s t).flow_rate_m3_s = calculate_flow_rate s (specDtIter s 19 10.0) ∧
    (simulate s t).temperature_difference_C = specDtIter s 20 10.0 ∧
    specDtIter s 20 10.0 = specStep s (specDtIter s 19 10.0) ∧
    (calculate_flow_rate s (specDtIter s 19 10.0) ≠
        calculate_flow_rate s (specDtIter s 20 10.0) →
      (simulate s t).flow_rate_m3_s ≠
        calculate_flow_rate s ((simulate s t).temperature_difference_C)) := by
  refine ⟨?_, ?_, ?_, ?_⟩
  · rw [simulate_fields]
  · rw [simulate_fields]
  · exact specDtIter_succ_right s 19 10.0
  · intro h
    rw [simulate_fields]
    exact h

/-- C4: simulate performs exactly 20 outer iterations from delta_t = 10.0 with
no early exit, where each iteration computes the flow rate at the current
delta_t, the mass flow, the energy-balance delta_t_calc guarded by
mass_flow > 0, and the 50 percent relaxation update. -/
theorem c4_twenty_outer_iterations (s : NaturalCirculationSimulator) (t : ℝ) :
    (simulate s t).temperature_difference_C = specDtIter s 20 10.0 ∧
    (simulate s t).flow_rate_m3_s = calculate_flow_rate s (specDtIter s 19 10.0) ∧
    (∀ dt : ℝ, specStep s dt =
      0.5 * dt + 0.5 *
        (if calculate_flow_rate s dt * s.fluid.density > 0 then
          s.heater_power / (calculate_flow_rate s dt * s.fluid.density * s.fluid.specific_heat)
        else dt)) ∧
    (∀ dt : ℝ, specDtIter s 0 dt = dt) ∧
    (∀ (n : ℕ) (dt : ℝ), specDtIter s (n + 1) dt = specDtIter s n (specStep s dt)) := by
  refine ⟨?_, ?_, fun dt => rfl, fun dt => rfl, fun n dt => rfl⟩
  · rw [simulate_fields]
  · rw [simulate_fields]

/-- C5: in every result record, cold_leg_temp_C is the cooler temperature,
hot_leg_temp_C is exactly cooler temperature plus the reported temperature
difference, and the record carries the last flow rate, the final delta_t and the
fluid's display name. -/
theorem c5_result_record (s : NaturalCirculationSimulator) (t : ℝ) :
    (simulate s t).cold_leg_temp_C = s.cooler_temp ∧
    (simulate s t).hot_leg_temp_C = s.cooler_temp + (simulate s t).temperature_difference_C ∧
    (simulate s t).hot_leg_temp_C =
      (simulate s t).cold_leg_temp_C + (simulate s t).temperature_difference_C ∧
    (simulate s t).flow_rate_m3_s = calculate_flow_rate s (specDtIter s 19 10.0) ∧
    (simulate s t).temperature_difference_C = specDtIter s 20 10.0 ∧
    (simulate s t).fluid = s.fluid.name := by
  rw [simulate_fields]
  exact ⟨rfl, rfl, rfl, rfl, rfl, rfl⟩

/-- C6: the friction factor used at every iteration is 64/Re in the laminar
branch (Re < 2000 and Re > 0), the fallback 0.064 when Re is not positive, and
the Blasius correlation 0.316/Re^0.25 otherwise; the loop length is 4 times the
height, the pressure drop is the Darcy-Weisbach expression at that length, and
the buoyancy head is 9.81 * rho * 0.00021 * delta_t * height. -/
theorem c6_friction_and_pressure_model (s : NaturalCirculationSimulator) (v delta_t : ℝ) :
    reynolds s v = s.fluid.density * v * s.pipe_diameter / s.fluid.viscosity ∧
    (reynolds s v < 2000 → 0 < reynolds s v → frictionFactor s v = 64 / reynolds s v) ∧
    (reynolds s v ≤ 0 → frictionFactor s v = 0.064) ∧
    (¬ reynolds s v < 2000 → frictionFactor s v = 0.316 / reynolds s v ^ (0.25 : ℝ)) ∧
    loopLength s = 4 * s.loop_height ∧
    pressureDrop s v =
      frictionFactor s v * (loopLength s / s.pipe_diameter) * (s.fluid.density * v ^ 2) / 2 ∧
    pressureDrop s v =
      frictionFactor s v * (loopLength s / s.pipe_diameter) * (s.fluid.density * v ^ 2 / 2) ∧
    pressureHead s delta_t = 9.81 * s.fluid.density * 0.00021 * delta_t * s.loop_height := by
  refine ⟨rfl, ?_, ?_, ?_, rfl, rfl, ?_, rfl⟩
  · intro h1 h2
    unfold frictionFactor
    rw [if_pos h1, if_pos h2]
  · intro h
    unfold frictionFactor
    rw [if_pos (lt_of_le_of_lt h (by norm_num)), if_neg (not_lt.mpr h)]
  · intro h
    unfold frictionFactor
    rw [if_neg h]
  · unfold pressureDrop
    ring

lemma reynolds_pos (s : NaturalCirculationSimulator) (v : ℝ) (hrho : 0 < s.fluid.density)
    (hmu : 0 < s.fluid.viscosity) (hD : 0 < s.pipe_diameter) (hv : 0 < v) :
    0 < reynolds s v :=
  div_pos (mul_pos (mul_pos hrho hv) hD) hmu

/-- C10: under strictly positive density, viscosity, specific heat, diameter and
height, the three degenerate-state fallbacks are dead code: every velocity the
loop sees (0.1 at entry, clamped values afterwards) is at least 1e-5, so its
Reynolds number is strictly positive and the friction factor never takes the
0.064 fallback, the velocity is never zero so the fixed +0.01 step is never
taken, and the mass flow is strictly positive so delta_t_calc never falls back
to the previous delta_t. -/
theorem c10_fallbacks_unreachable (s : NaturalCirculationSimulator)
    (hrho : 0 < s.fluid.density) (hmu : 0 < s.fluid.viscosity)
    (hcp : 0 < s.fluid.specific_heat) (hD : 0 < s.pipe_diameter)
    (hH : 0 < s.loop_height) :
    (∀ (delta_t : ℝ) (n : ℕ), 1e-5 ≤ flowIter s delta_t n 0.1) ∧
    (∀ v : ℝ, 1e-5 ≤ v → 0 < reynolds s v) ∧
    (∀ v : ℝ, 1e-5 ≤ v →
      frictionFactor s v =
        if reynolds s v < 2000 then 64 / reynolds s v
        else 0.316 / reynolds s v ^ (0.25 : ℝ)) ∧
    (∀ (delta_t v : ℝ), 1e-5 ≤ v →
      velocityUpdate s delta_t v =
        max (v + (pressureHead s delta_t - pressureDrop s v) /
          (s.fluid.density * v * loopLength s / s.pipe_diameter)) 1e-5) ∧
    (∀ delta_t : ℝ, 0 < calculate_flow_rate s delta_t * s.fluid.density) ∧
    (∀ delta_t : ℝ, specStep s delta_t =
      0.5 * delta_t + 0.5 * (s.heater_power /
        (calculate_flow_rate s delta_t * s.fluid.density * s.fluid.specific_heat))) := by
  have hvpos : ∀ v : ℝ, 1e-5 ≤ v → 0 < v := fun v hv => lt_of_lt_of_le (by norm_num) hv
  have hmass : ∀ delta_t : ℝ, 0 < calculate_flow_rate s delta_t * s.fluid.density :=
    fun delta_t => mul_pos (calculate_flow_rate_pos s delta_t hD) hrho
  refine ⟨fun delta_t n => flowIter_floor s delta_t n 0.1 (by norm_num),
    fun v hv => reynolds_pos s v hrho hmu hD (hvpos v hv), ?_, ?_, hmass, ?_⟩
  · intro v hv
    have hRe : reynolds s v > 0 := reynolds_pos s v hrho hmu hD (hvpos v hv)
    unfold frictionFactor
    rw [if_pos hRe]
  · intro delta_t v hv
    unfold velocityUpdate
    rw [if_pos (ne_of_gt (hvpos v hv))]
  · intro delta_t
    unfold specStep
    dsimp only
    rw [if_pos (hmass delta_t)]

/-- Witness for C10 at the example-driver configuration and delta_t = 7. -/
theorem c10_fallbacks_unreachable_witness :
    (0 < simW.fluid.density ∧ 0 < simW.fluid.viscosity ∧ 0 < simW.fluid.specific_heat ∧
      0 < simW.pipe_diameter ∧ 0 < simW.loop_height) ∧
    0 < calculate_flow_rate simW 7 * simW.fluid.density :=
  ⟨⟨by norm_num [simW, Water], by norm_num [simW, Water], by norm_num [simW, Water],
      by norm_num [simW, Water], by norm_num [simW, Water]⟩,
    (c10_fallbacks_unreachable simW (by norm_num [simW, Water]) (by norm_num [simW, Water])
      (by norm_num [simW, Water]) (by norm_num [simW, Water])
      (by norm_num [simW, Water])).2.2.2.2.1 7⟩

/-
Checked variants for the error-handling claim: every site at which the Python
source could raise (float division with a zero denominator raises
ZeroDivisionError; there are no other raise sites in calculate_flow_rate or
simulate) is modelled explicitly, returning Except.error instead of a value.
All other behavior, including silent acceptance of a non-converged velocity
after 100 iterations, is unchanged.
-/

/-- Checked inner loop: errors where Python would raise. The reynolds
computation divides by viscosity, pressure_drop divides by pipe_diameter, and
the velocity update (only reached when the tolerance break fails, and only
dividing when v is nonzero) divides by rho * v * loop_length / pipe_diameter. -/
noncomputable def flowIterChecked (s : NaturalCirculationSimulator) (delta_t : ℝ) :
    ℕ → ℝ → Except String ℝ
  | 0, v => Except.ok v
  | n + 1, v =>
      if s.fluid.viscosity = 0 ∨ s.pipe_diameter = 0 then Except.error "ZeroDivisionError"
      else if |pressureHead s delta_t - pressureDrop s v| < 1e-6 then Except.ok v
      else if v ≠ 0 ∧ s.fluid.density * v * loopLength s / s.pipe_diameter = 0 then
        Except.error "ZeroDivisionError"
      else flowIterChecked s delta_t n (velocityUpdate s delta_t v)

noncomputable def calculate_flow_rateChecked (s : NaturalCirculationSimulator)
    (delta_t : ℝ) : Except String ℝ :=
  Except.map (fun v => v * cross_section s) (flowIterChecked s delta_t 100 0.1)

/-- Checked outer-iteration step: the energy balance divides by
mass_flow * specific_heat, but only when mass_flow > 0. -/
noncomputable def outerStepChecked (s : NaturalCirculationSimulator) (st : ℝ × ℝ) :
    Except String (ℝ × ℝ) :=
  Except.bind (calculate_flow_rateChecked s st.1) (fun flow_rate =>
    if flow_rate * s.fluid.density > 0 ∧
        flow_rate * s.fluid.density * s.fluid.specific_heat = 0 then
      Except.error "ZeroDivisionError"
    else
      Except.ok (0.5 * st.1 + 0.5 *
          (if flow_rate * s.fluid.density > 0 then
            s.heater_power / (flow_rate * s.fluid.density * s.fluid.specific_heat)
          else st.1),
        flow_rate))

noncomputable def outerLoopChecked (s : NaturalCirculationSimulator) :
    ℕ → ℝ × ℝ → Except String (ℝ × ℝ)
  | 0, st => Except.ok st
  | n + 1, st => Except.bind (outerStepChecked s st) (outerLoopChecked s n)

noncomputable def simulateChecked (s : NaturalCirculationSimulator) (initial_temp : ℝ) :
    Except String SimResult :=
  Except.map
    (fun st : ℝ × ℝ =>
      (⟨st.2, s.cooler_temp + st.1, s.cooler_temp, st.1, s.fluid.name⟩ : SimResult))
    (outerLoopChecked s 20 (10.0, 0))

lemma except_bind_ok {α β : Type} (x : α) (f : α → Except String β) :
    Except.bind (Except.ok x) f = f x := rfl

lemma flowIterChecked_zero (s : NaturalCirculationSimulator) (delta_t v : ℝ) :
    flowIterChecked s delta_t 0 v = Except.ok v := rfl

lemma flowIterChecked_succ (s : NaturalCirculationSimulator) (delta_t : ℝ) (n : ℕ) (v : ℝ) :
    flowIterChecked s delta_t (n + 1) v =
      if s.fluid.viscosity = 0 ∨ s.pipe_diameter = 0 then Except.error "ZeroDivisionError"
      else if |pressureHead s delta_t - pressureDrop s v| < 1e-6 then Except.ok v
      else if v ≠ 0 ∧ s.fluid.density * v * loopLength s / s.pipe_diameter = 0 then
        Except.error "ZeroDivisionError"
      else flowIterChecked s delta_t n (velocityUpdate s delta_t v) := rfl

lemma outerLoopChecked_zero (s : NaturalCirculationSimulator) (st : ℝ × ℝ) :
    outerLoopChecked s 0 st = Except.ok st := rfl

lemma outerLoopChecked_succ (s : NaturalCirculationSimulator) (n : ℕ) (st : ℝ × ℝ) :
    outerLoopChecked s (n + 1) st =
      Except.bind (outerStepChecked s st) (outerLoopChecked s n) := rfl

lemma outerLoop_succ_state (s : NaturalCirculationSimulator) (n : ℕ) (st : ℝ × ℝ) :
    outerLoop s (n + 1) st =
      outerLoop s n (specStep s st.1, calculate_flow_rate s st.1) := by
  simp only [outerLoop, specStep]

lemma flowIterChecked_ok (s : NaturalCirculationSimulator)
    (hrho : 0 < s.fluid.density) (hmu : 0 < s.fluid.viscosity)
    (hD : 0 < s.pipe_diameter) (hH : 0 < s.loop_height) (delta_t : ℝ) :
    ∀ (n : ℕ) (v : ℝ),
      flowIterChecked s delta_t n v = Except.ok (flowIter s delta_t n v) := by
  have hnot : ¬(s.fluid.viscosity = 0 ∨ s.pipe_diameter = 0) := by
    rintro (h | h)
    · exact hmu.ne' h
    · exact hD.ne' h
  intro n
  induction n with
  | zero => intro v; rw [flowIterChecked_zero, flowIter_zero]
  | succ n ih =>
      intro v
      rw [flowIterChecked_succ, flowIter_succ, if_neg hnot]
      split_ifs with h1 h2
      · rfl
      · exfalso
        rcases h2 with ⟨hv0, hzero⟩
        have hL : loopLength s ≠ 0 := by
          have : (0 : ℝ) < 4 * s.loop_height := by positivity
          exact this.ne'
        exact div_ne_zero (mul_ne_zero (mul_ne_zero hrho.ne' hv0) hL) hD.ne' hzero
      · exact ih (velocityUpdate s delta_t v)

lemma calculate_flow_rateChecked_ok (s : NaturalCirculationSimulator)
    (hrho : 0 < s.fluid.density) (hmu : 0 < s.fluid.viscosity)
    (hD : 0 < s.pipe_diameter) (hH : 0 < s.loop_height) (delta_t : ℝ) :
    calculate_flow_rateChecked s delta_t = Except.ok (calculate_flow_rate s delta_t) := by
  unfold calculate_flow_rateChecked
  rw [flowIterChecked_ok s hrho hmu hD hH delta_t 100 0.1]
  rfl

lemma outerStepChecked_ok (s : NaturalCirculationSimulator)
    (hrho : 0 < s.fluid.density) (hmu : 0 < s.fluid.viscosity)
    (hcp : 0 < s.fluid.specific_heat) (hD : 0 < s.pipe_diameter)
    (hH : 0 < s.loop_height) (st : ℝ × ℝ) :
    outerStepChecked s st = Except.ok (specStep s st.1, calculate_flow_rate s st.1) := by
  unfold outerStepChecked
  rw [calculate_flow_rateChecked_ok s hrho hmu hD hH st.1, except_bind_ok]
  have hnot : ¬(calculate_flow_rate s st.1 * s.fluid.density > 0 ∧
      calculate_flow_rate s st.1 * s.fluid.density * s.fluid.specific_heat = 0) := by
    rintro ⟨h1, h2⟩
    exact (mul_pos h1 hcp).ne' h2
  rw [if_neg hnot]
  rfl

lemma outerLoopChecked_ok (s : NaturalCirculationSimulator)
    (hrho : 0 < s.fluid.density) (hmu : 0 < s.fluid.viscosity)
    (hcp : 0 < s.fluid.specific_heat) (hD : 0 < s.pipe_diameter)
    (hH : 0 < s.loop_height) :
    ∀ (n : ℕ) (st : ℝ × ℝ), outerLoopChecked s n st = Except.ok (outerLoop s n st) := by
  intro n
  induction n with
  | zero => intro st; rw [outerLoopChecked_zero, outerLoop_zero]
  | succ n ih =>
      intro st
      rw [outerLoopChecked_succ, outerStepChecked_ok s hrho hmu hcp hD hH st,
        except_bind_ok, ih, outerLoop_succ_state]

/-- C9: under strictly positive fluid properties and geometry, the checked
semantics (which errors exactly where Python float division would raise
ZeroDivisionError) never errors, for every delta_t, initial temperature and
heater power: the inner loop silently returns its last velocity when the 100
iterations run out, and the degenerate cases are handled by fallbacks, not by
raising. -/
theorem c9_never_raises (s : NaturalCirculationSimulator)
    (hrho : 0 < s.fluid.density) (hmu : 0 < s.fluid.viscosity)
    (hcp : 0 < s.fluid.specific_heat) (hD : 0 < s.pipe_diameter)
    (hH : 0 < s.loop_height) :
    (∀ (delta_t : ℝ) (n : ℕ) (v : ℝ),
      flowIterChecked s delta_t n v = Except.ok (flowIter s delta_t n v)) ∧
    (∀ delta_t : ℝ,
      calculate_flow_rateChecked s delta_t = Except.ok (calculate_flow_rate s delta_t)) ∧
    (∀ t : ℝ, simulateChecked s t = Except.ok (simulate s t)) := by
  refine ⟨fun delta_t => flowIterChecked_ok s hrho hmu hD hH delta_t,
    fun delta_t => calculate_flow_rateChecked_ok s hrho hmu hD hH delta_t, ?_⟩
  intro t
  unfold simulateChecked
  rw [outerLoopChecked_ok s hrho hmu hcp hD hH 20 (10.0, 0)]
  rfl

/-- Witness for C9 at the example-driver configuration. -/
theorem c9_never_raises_witness :
    (0 < simW.fluid.density ∧ 0 < simW.fluid.viscosity ∧ 0 < simW.fluid.specific_heat ∧
      0 < simW.pipe_diameter ∧ 0 < simW.loop_height) ∧
    simulateChecked simW 20 = Except.ok (simulate simW 20) :=
  ⟨⟨by norm_num [simW, Water], by norm_num [simW, Water], by norm_num [simW, Water],
      by norm_num [simW, Water], by norm_num [simW, Water]⟩,
    (c9_never_raises simW (by norm_num [simW, Water]) (by norm_num [simW, Water])
      (by norm_num [simW, Water]) (by norm_num [simW, Water])
      (by norm_num [simW, Water])).2.2 20⟩

/-- A simulator with unit fluid properties and unit geometry, so that the
Reynolds number at velocity v is v itself. Used to probe the friction-factor
regime switch at Re = 2000. -/
def simUnit : NaturalCirculationSimulator :=
  ⟨⟨"unit", 1, 1, 1, 1⟩, 1, 1, 1, 1⟩

lemma reynolds_simUnit (v : ℝ) : reynolds simUnit v = v := by
  simp [reynolds, simUnit]

lemma frictionFactor_simUnit_1999 : frictionFactor simUnit 1999 = 64 / 1999 := by
  unfold frictionFactor
  rw [reynolds_simUnit, if_pos (by norm_num : (1999:ℝ) < 2000),
    if_pos (by norm_num : (1999:ℝ) > 0)]

lemma frictionFactor_simUnit_2001 :
    frictionFactor simUnit 2001 = 0.316 / (2001 : ℝ) ^ (0.25 : ℝ) := by
  unfold frictionFactor
  rw [reynolds_simUnit, if_neg (by norm_num : ¬ (2001:ℝ) < 2000)]

lemma rpow_quarter_2001_pow_four : ((2001 : ℝ) ^ (0.25 : ℝ)) ^ (4 : ℕ) = 2001 := by
  rw [← Real.rpow_natCast ((2001 : ℝ) ^ (0.25 : ℝ)) 4,
    ← Real.rpow_mul (by norm_num : (0:ℝ) ≤ 2001)]
  norm_num

lemma rpow_quarter_2001_pos : 0 < (2001 : ℝ) ^ (0.25 : ℝ) :=
  Real.rpow_pos_of_pos (by norm_num) _

lemma rpow_quarter_2001_lt : (2001 : ℝ) ^ (0.25 : ℝ) < 6.7 := by
  by_contra hc
  push_neg at hc
  have h4 : (6.7 : ℝ) ^ (4 : ℕ) ≤ ((2001 : ℝ) ^ (0.25 : ℝ)) ^ (4 : ℕ) :=
    pow_le_pow_left (by norm_num) hc 4
  rw [rpow_quarter_2001_pow_four] at h4
  norm_num at h4

lemma rpow_quarter_2001_gt : 6.68 < (2001 : ℝ) ^ (0.25 : ℝ) := by
  by_contra hc
  push_neg at hc
  have h4 : ((2001 : ℝ) ^ (0.25 : ℝ)) ^ (4 : ℕ) ≤ (6.68 : ℝ) ^ (4 : ℕ) :=
    pow_le_pow_left rpow_quarter_2001_pos.le hc 4
  rw [rpow_quarter_2001_pow_four] at h4
  norm_num at h4

/-- C8 counterexample: just below the switch (Re = 1999, laminar formula) and
just above it (Re = 2001, Blasius formula) the two friction factors do NOT
agree to within a few percent: their gap exceeds 5 percent of the laminar value
(it is in fact about 47 percent). -/
theorem c8_counterexample :
    ¬ (|frictionFactor simUnit 2001 - frictionFactor simUnit 1999| ≤
        0.05 * frictionFactor simUnit 1999) := by
  rw [frictionFactor_simUnit_1999, frictionFactor_simUnit_2001]
  intro hle
  have h1 : (0.316 : ℝ) / 6.7 < 0.316 / (2001 : ℝ) ^ (0.25 : ℝ) :=
    div_lt_div_of_pos_left (by norm_num) rpow_quarter_2001_pos rpow_quarter_2001_lt
  have h2 : (0.316 : ℝ) / (2001 : ℝ) ^ (0.25 : ℝ) - 64 / 1999 ≤
      |(0.316 : ℝ) / (2001 : ℝ) ^ (0.25 : ℝ) - 64 / 1999| := le_abs_self _
  linarith

/-- C8 amended: at the Re = 2000 regime switch the two friction-factor formulas
differ by a bounded amount, but not by a few percent: the Blasius value just
above the switch lies strictly between 1.4 and 1.5 times the laminar value just
below it (about 47 percent higher). -/
theorem c8_amended_bounded_gap :
    frictionFactor simUnit 1999 < frictionFactor simUnit 2001 ∧
    1.4 * frictionFactor simUnit 1999 < frictionFactor simUnit 2001 ∧
    frictionFactor simUnit 2001 < 1.5 * frictionFactor simUnit 1999 := by
  rw [frictionFactor_simUnit_1999, frictionFactor_simUnit_2001]
  have h1 : (0.316 : ℝ) / 6.7 < 0.316 / (2001 : ℝ) ^ (0.25 : ℝ) :=
    div_lt_div_of_pos_left (by norm_num) rpow_quarter_2001_pos rpow_quarter_2001_lt
  have h2 : (0.316 : ℝ) / (2001 : ℝ) ^ (0.25 : ℝ) < 0.316 / 6.68 :=
    div_lt_div_of_pos_left (by norm_num) (by norm_num) rpow_quarter_2001_gt
  refine ⟨?_, ?_, ?_⟩ <;> linarith

/-
Claim C7 probes monotonicity of calculate_flow_rate in delta_t. With the fluid
and geometry below, every velocity the inner loop visits keeps the Reynolds
number in the laminar range, the tolerance break never fires, and the velocity
iteration falls into an exact 2-cycle, so the value after the fixed 100
iterations depends on the parity of the orbit: for dtLo the orbit is
0.1 -> 0.05 -> 0.2 -> 0.05 -> ... (ending at 0.2), while for the larger dtHi it
is 0.1 -> 0.15 -> 0.1 -> ... (ending at 0.1). Hence a larger delta_t yields a
strictly smaller flow rate. -/
def fluidC7 : Fluid := ⟨"TestFluid", 1, 4182, 0.001, 0.6⟩

def simC7 : NaturalCirculationSimulator := ⟨fluidC7, 1, 0.128, 1000, 20⟩

noncomputable def dtLo : ℝ := 6250000 / 20601

noncomputable def dtHi : ℝ := 9375000 / 20601

lemma headLo : pressureHead simC7 dtLo = 0.625 := by
  norm_num [pressureHead, simC7, fluidC7, dtLo]

lemma headHi : pressureHead simC7 dtHi = 0.9375 := by
  norm_num [pressureHead, simC7, fluidC7, dtHi]

lemma drop_01 : pressureDrop simC7 0.1 = 0.78125 := by
  norm_num [pressureDrop, frictionFactor, loopLength, reynolds, simC7, fluidC7]

lemma drop_005 : pressureDrop simC7 0.05 = 0.390625 := by
  norm_num [pressureDrop, frictionFactor, loopLength, reynolds, simC7, fluidC7]

lemma drop_02 : pressureDrop simC7 0.2 = 1.5625 := by
  norm_num [pressureDrop, frictionFactor, loopLength, reynolds, simC7, fluidC7]

lemma drop_015 : pressureDrop simC7 0.15 = 1.171875 := by
  norm_num [pressureDrop, frictionFactor, loopLength, reynolds, simC7, fluidC7]

lemma vUpd_Lo_01 : velocityUpdate simC7 dtLo 0.1 = 0.05 := by
  unfold velocityUpdate
  rw [if_pos (by norm_num : (0.1 : ℝ) ≠ 0), headLo, drop_01]
  norm_num [simC7, fluidC7, loopLength, max_def]

lemma vUpd_Lo_005 : velocityUpdate simC7 dtLo 0.05 = 0.2 := by
  unfold velocityUpdate
  rw [if_pos (by norm_num : (0.05 : ℝ) ≠ 0), headLo, drop_005]
  norm_num [simC7, fluidC7, loopLength, max_def]

lemma vUpd_Lo_02 : velocityUpdate simC7 dtLo 0.2 = 0.05 := by
  unfold velocityUpdate
  rw [if_pos (by norm_num : (0.2 : ℝ) ≠ 0), headLo, drop_02]
  norm_num [simC7, fluidC7, loopLength, max_def]

lemma vUpd_Hi_01 : velocityUpdate simC7 dtHi 0.1 = 0.15 := by
  unfold velocityUpdate
  rw [if_pos (by norm_num : (0.1 : ℝ) ≠ 0), headHi, drop_01]
  norm_num [simC7, fluidC7, loopLength, max_def]

lemma vUpd_Hi_015 : velocityUpdate simC7 dtHi 0.15 = 0.1 := by
  unfold velocityUpdate
  rw [if_pos (by norm_num : (0.15 : ℝ) ≠ 0), headHi, drop_015]
  norm_num [simC7, fluidC7, loopLength, max_def]

lemma stepLo_01 (n : ℕ) : flowIter simC7 dtLo (n + 1) 0.1 = flowIter simC7 dtLo n 0.05 := by
  rw [flowIter_succ, if_neg (by rw [headLo, drop_01]; norm_num [abs_lt]), vUpd_Lo_01]

lemma stepLo_005 (n : ℕ) : flowIter simC7 dtLo (n + 1) 0.05 = flowIter simC7 dtLo n 0.2 := by
  rw [flowIter_succ, if_neg (by rw [headLo, drop_005]; norm_num [abs_lt]), vUpd_Lo_005]

lemma stepLo_02 (n : ℕ) : flowIter simC7 dtLo (n + 1) 0.2 = flowIter simC7 dtLo n 0.05 := by
  rw [flowIter_succ, if_neg (by rw [headLo, drop_02]; norm_num [abs_lt]), vUpd_Lo_02]

lemma stepHi_01 (n : ℕ) : flowIter simC7 dtHi (n + 1) 0.1 = flowIter simC7 dtHi n 0.15 := by
  rw [flowIter_succ, if_neg (by rw [headHi, drop_01]; norm_num [abs_lt]), vUpd_Hi_01]

lemma stepHi_015 (n : ℕ) : flowIter simC7 dtHi (n + 1) 0.15 = flowIter simC7 dtHi n 0.1 := by
  rw [flowIter_succ, if_neg (by rw [headHi, drop_015]; norm_num [abs_lt]), vUpd_Hi_015]

lemma cycleLo (k : ℕ) :
    flowIter simC7 dtLo (2 * k) 0.05 = 0.05 ∧ flowIter simC7 dtLo (2 * k) 0.2 = 0.2 := by
  induction k with
  | zero => exact ⟨flowIter_zero simC7 dtLo 0.05, flowIter_zero simC7 dtLo 0.2⟩
  | succ k ih =>
      have h2 : 2 * (k + 1) = 2 * k + 1 + 1 := by ring
      constructor
      · rw [h2, stepLo_005, stepLo_02]
        exact ih.1
      · rw [h2, stepLo_02, stepLo_005]
        exact ih.2

lemma cycleHi (k : ℕ) :
    flowIter simC7 dtHi (2 * k) 0.1 = 0.1 ∧ flowIter simC7 dtHi (2 * k) 0.15 = 0.15 := by
  induction k with
  | zero => exact ⟨flowIter_zero simC7 dtHi 0.1, flowIter_zero simC7 dtHi 0.15⟩
  | succ k ih =>
      have h2 : 2 * (k + 1) = 2 * k + 1 + 1 := by ring
      constructor
      · rw [h2, stepHi_01, stepHi_015]
        exact ih.1
      · rw [h2, stepHi_015, stepHi_01]
        exact ih.2

lemma flowIter_Lo_100 : flowIter simC7 dtLo 100 0.1 = 0.2 := by
  have h : (100 : ℕ) = 2 * 49 + 1 + 1 := by norm_num
  rw [h, stepLo_01, stepLo_005]
  exact (cycleLo 49).2

lemma flowIter_Hi_100 : flowIter simC7 dtHi 100 0.1 = 0.1 := by
  have h : (100 : ℕ) = 2 * 49 + 1 + 1 := by norm_num
  rw [h, stepHi_01, stepHi_015]
  exact (cycleHi 49).1

lemma cfr_Lo : calculate_flow_rate simC7 dtLo = 0.2 * cross_section simC7 := by
  unfold calculate_flow_rate
  rw [flowIter_Lo_100]

lemma cfr_Hi : calculate_flow_rate simC7 dtHi = 0.1 * cross_section simC7 := by
  unfold calculate_flow_rate
  rw [flowIter_Hi_100]

lemma cross_section_simC7_pos : 0 < cross_section simC7 :=
  cross_section_pos simC7 (by norm_num [simC7])

/-- C7 counterexample: a fixed fluid and geometry with strictly positive
properties and two temperature differences dtLo <= dtHi (about 303.4 and 455.1)
for which calculate_flow_rate strictly decreases: the non-converged inner
iteration ends on opposite phases of a 2-cycle. -/
theorem c7_counterexample :
    dtLo ≤ dtHi ∧
    (0 < simC7.fluid.density ∧ 0 < simC7.fluid.specific_heat ∧
      0 < simC7.fluid.viscosity ∧ 0 < simC7.fluid.thermal_conductivity ∧
      0 < simC7.loop_height ∧ 0 < simC7.pipe_diameter) ∧
    calculate_flow_rate simC7 dtHi < calculate_flow_rate simC7 dtLo := by
  refine ⟨by norm_num [dtLo, dtHi], ⟨by norm_num [simC7, fluidC7], by norm_num [simC7, fluidC7],
    by norm_num [simC7, fluidC7], by norm_num [simC7, fluidC7], by norm_num [simC7],
    by norm_num [simC7]⟩, ?_⟩
  rw [cfr_Lo, cfr_Hi]
  exact mul_lt_mul_of_pos_right (by norm_num) cross_section_simC7_pos

/-- C7 amended: the buoyancy pressure head is monotone non-decreasing in
delta_t for nonnegative density and height (the spec's stated rationale), but
calculate_flow_rate itself is not monotone: there is a fixed fluid and geometry
with strictly positive properties and delta_t1 <= delta_t2 on which the
returned flow rate strictly decreases. -/
theorem c7_amended_head_monotone_flow_not :
    (∀ (s : NaturalCirculationSimulator) (d1 d2 : ℝ),
      0 ≤ s.fluid.density → 0 ≤ s.loop_height → d1 ≤ d2 →
        pressureHead s d1 ≤ pressureHead s d2) ∧
    (∃ (s : NaturalCirculationSimulator) (d1 d2 : ℝ),
      (0 < s.fluid.density ∧ 0 < s.fluid.viscosity ∧ 0 < s.fluid.specific_heat ∧
        0 < s.pipe_diameter ∧ 0 < s.loop_height) ∧
      d1 ≤ d2 ∧ calculate_flow_rate s d2 < calculate_flow_rate s d1) := by
  constructor
  · intro s d1 d2 hrho hH hd
    unfold pressureHead
    have hc : (0 : ℝ) ≤ 9.81 * s.fluid.density * 0.00021 :=
      mul_nonneg (mul_nonneg (by norm_num) hrho) (by norm_num)
    exact mul_le_mul_of_nonneg_right (mul_le_mul_of_nonneg_left hd hc) hH
  · refine ⟨simC7, dtLo, dtHi,
      ⟨by norm_num [simC7, fluidC7], by norm_num [simC7, fluidC7],
        by norm_num [simC7, fluidC7], by norm_num [simC7], by norm_num [simC7]⟩,
      by norm_num [dtLo, dtHi], ?_⟩
    rw [cfr_Lo, cfr_Hi]
    exact mul_lt_mul_of_pos_right (by norm_num) cross_section_simC7_pos
